import Mathlib

/-!
Verification of the relationship-graph and entity-set core of the
featuretools `ww_entityset` module.

The development shallowly embeds `featuretools/entityset/ww_entityset.py`:
dataframes are schema-level records (name, engine, emptiness, index,
time index, per-column physical dtype / logical type / semantic tags),
the entity set is the aggregate of its dataframe dictionary, relationship
list, shared time-type classification and cached data description, and
each mutating operation of the source is a state-passing function that
either succeeds or raises a Python-style error while keeping the
mutations performed so far (Python exceptions do not roll state back).

Parts of the repository that the module calls but whose sources are not
available (the `Relationship` constructor, the woodwork table accessor,
the serialization round trip, `_check_time_type` and
`DEFAULT_DTYPE_VALUES`) are modelled from the specification; each such
definition carries a doc comment starting with `Modelled from the spec:`.
-/

namespace Featuretools

/-- Python-style errors raised by the embedded operations. -/
inductive PyErr where
  | valueError (msg : String)
  | typeError (msg : String)
  | keyError (msg : String)
  | attributeError (msg : String)
  | assertionError (msg : String)
  | stopIteration
deriving DecidableEq, Repr

/-- Errors whose class is ValueError or TypeError. -/
def PyErr.isValueOrType : PyErr → Bool
  | .valueError _ => true
  | .typeError _ => true
  | _ => false

/-- Dataframe engine backing a table (`pd.DataFrame`, `dask`, `koalas`). -/
inductive Engine where
  | pandas
  | dask
  | koalas
deriving DecidableEq, Repr

/-- Physical (pandas) dtype of a column, compared with `is_dtype_equal`. -/
inductive Dtype where
  | object
  | int64
  | float64
  | datetime64
  | category
  | boolDtype
deriving DecidableEq, Repr

/-- Woodwork logical type of a column. -/
inductive LType where
  | integer
  | double
  | categorical
  | datetimeLt
  | naturalLanguage
  | booleanLt
deriving DecidableEq, Repr

/-- Whether a logical type is numeric (`ww[col].is_numeric`). -/
def LType.isNumeric : LType → Bool
  | .integer => true
  | .double => true
  | _ => false

/-- The two time-type classifications an entity set can homogenise on. -/
inductive TimeType where
  | numeric
  | datetime
deriving DecidableEq, Repr

/-- Schema-level view of one column: physical dtype, logical type,
semantic tags, and the `_check_time_type` classification of the column's
first value (row data itself is outside the embedding, so the
classification of the first row is carried as a field). -/
structure Column where
  dtype : Dtype
  ltype : LType
  tags : List String
  firstClass : Option TimeType
deriving DecidableEq, Repr

/-- Schema-level view of one dataframe of the entity set: its woodwork
name, backing engine, whether it has zero rows, whether woodwork schema
has been initialized, index and time index columns, ordered column
mapping, and the `secondary_time_index` entry of its woodwork metadata. -/
structure DataFrame where
  name : String
  engine : Engine
  empty : Bool
  schemaInit : Bool
  index : Option String
  timeIndex : Option String
  cols : List (String × Column)
  metadataSti : Option (List (String × List String))
deriving DecidableEq, Repr

/-- Column names of a dataframe (`df.columns`). -/
def DataFrame.columns (df : DataFrame) : List String :=
  df.cols.map Prod.fst

/-- A relationship, identified (and compared) by its four names:
parent dataframe, parent column, child dataframe, child column. -/
structure Relationship where
  parentDf : String
  parentCol : String
  childDf : String
  childCol : String
deriving DecidableEq, Repr

/-- The mutable core of an `EntitySet`: ordered dataframe dictionary,
relationship list and the shared time-type classification. -/
structure ESCore where
  dataframeDict : List (String × DataFrame)
  relationships : List Relationship
  timeType : Option TimeType
deriving DecidableEq, Repr

/-- An `EntitySet`: its core plus the lazily cached data description
(`_data_description`), which the `metadata` property fills and
`reset_data_description` clears. -/
structure EntitySet extends ESCore where
  dataDescription : Option ESCore
deriving DecidableEq, Repr

/-- The state threaded through mutating calls: the entity set together
with the warnings emitted so far (`warnings.warn`). -/
structure PyState where
  es : EntitySet
  warnings : List String
deriving DecidableEq, Repr

/-- Outcome of a mutating call: Python exceptions leave previously
performed mutations in place, so both outcomes carry the state. -/
inductive PyResult (α : Type) where
  | ok (a : α) (st : PyState)
  | error (e : PyErr) (st : PyState)
deriving DecidableEq, Repr

/-- Sequencing of mutating calls: an error short-circuits, keeping the
state at the point of the raise. -/
def PyResult.bind {α β : Type} (r : PyResult α) (f : α → PyState → PyResult β) : PyResult β :=
  match r with
  | .ok a st => f a st
  | .error e st => .error e st

/-- Ordered-dictionary lookup on an association list. -/
def alookup {α : Type} : List (String × α) → String → Option α
  | [], _ => none
  | (k2, v) :: rest, k => if k2 = k then some v else alookup rest k

/-- Ordered-dictionary assignment: update in place if the key exists
(keeping insertion order, as Python dicts do), else append. -/
def aset {α : Type} : List (String × α) → String → α → List (String × α)
  | [], k, v => [(k, v)]
  | (k2, v2) :: rest, k, v =>
      if k2 = k then (k2, v) :: rest else (k2, v2) :: aset rest k v

/-- `self.dataframe_dict[name]` / `self[name]`: raises KeyError when the
dataframe is absent. -/
def lookupDf (name : String) (st : PyState) : PyResult DataFrame :=
  match alookup st.es.dataframeDict name with
  | some df => .ok df st
  | none => .error (.keyError name) st

/-- Store (or overwrite) a dataframe in the dataframe dictionary;
dataframes are mutated in place in the source, which at value level is a
store of the updated record under the same key. -/
def setDf (name : String) (df : DataFrame) (st : PyState) : PyState :=
  { st with es := { st.es with dataframeDict := aset st.es.dataframeDict name df } }

/-- Column access `df.ww.semantic_tags[col]` / `df[col]`: KeyError when
the column is absent. -/
def lookupCol (dfName colName : String) (st : PyState) : PyResult Column :=
  match alookup st.es.dataframeDict dfName with
  | none => .error (.keyError dfName) st
  | some df =>
      match alookup df.cols colName with
      | some c => .ok c st
      | none => .error (.keyError colName) st

/-- In-place update of one column of a stored dataframe. -/
def setCol (dfName colName : String) (c : Column) (st : PyState) : PyState :=
  match alookup st.es.dataframeDict dfName with
  | none => st
  | some df => setDf dfName { df with cols := aset df.cols colName c } st

/-- `warnings.warn(msg)`. -/
def warnSt (msg : String) (st : PyState) : PyState :=
  { st with warnings := st.warnings ++ [msg] }

/-- `reset_data_description`: clears the cached data description. -/
def reset_data_description (st : PyState) : PyState :=
  { st with es := { st.es with dataDescription := none } }

/-- Name of a stored dataframe: `relationship.parent_dataframe.ww.name`
(resp. `.ww.id`, which resolves to the same Tabular Store `name`
accessor) looks the dataframe up in the entity set and reads its name;
a dangling reference, which would raise a KeyError in the source, is
treated as a failed lookup. -/
def df_name (es : EntitySet) (n : String) : Option String :=
  (alookup es.dataframeDict n).map (fun d => d.name)

/-- `get_forward_relationships`: relationships where the given entity is
the child (`r.child_dataframe.ww.name == entity_id`), in registration
order. -/
def get_forward_relationships (es : EntitySet) (entity_id : String) : List Relationship :=
  es.relationships.filter (fun r => df_name es r.childDf = some entity_id)

/-- `get_backward_relationships`: relationships where the given entity is
the parent, in registration order. -/
def get_backward_relationships (es : EntitySet) (entity_id : String) : List Relationship :=
  es.relationships.filter (fun r => df_name es r.parentDf = some entity_id)

/-- `_forward_entity_paths`: depth-first search yielding every entity
reachable through forward relationships together with the relationship
list taken to it.  The start entity is yielded first with the empty
path; each branch carries its own copy of the `seen` set, so an entity
can be reached along several distinct paths but no path revisits an
entity.  The extra fuel argument bounds the recursion depth; along one
branch the entities are pairwise distinct, so each step consumes a
distinct relationship and a depth of `relationships.length + 1` can
never be exhausted (see `forward_entity_paths_fuel_stable`). -/
def forward_entity_paths (es : EntitySet) : Nat → String → List String →
    List (String × List Relationship)
  | 0, _, _ => []
  | fuel + 1, start, seen =>
      if start ∈ seen then []
      else
        (start, []) ::
          (get_forward_relationships es start).flatMap (fun r =>
            match df_name es r.parentDf with
            | some next =>
                (forward_entity_paths es fuel next (start :: seen)).map
                  (fun sp => (sp.1, r :: sp.2))
            | none => [])

/-- The relationships still usable from outside `seen`: every step the
depth-first search can take from a node not yet visited consumes one of
these, so their count bounds the remaining recursion depth. -/
def usable (es : EntitySet) (seen : List String) : List Relationship :=
  es.relationships.filter (fun r =>
    match df_name es r.childDf with
    | some n => decide (n ∉ seen)
    | none => false)

/-- `find_forward_paths`: the forward paths from `start` whose endpoint
is `goal`, in DFS order. -/
def find_forward_paths (es : EntitySet) (start goal : String) : List (List Relationship) :=
  (forward_entity_paths es (es.relationships.length + 1) start []).filterMap
    (fun sp => if sp.1 = goal then some sp.2 else none)

/-- `find_backward_paths`: each forward path from `goal` to `start`,
yielded reversed (`path[::-1]`). -/
def find_backward_paths (es : EntitySet) (start goal : String) : List (List Relationship) :=
  (find_forward_paths es goal start).map (fun p => p.reverse)

/-- `has_unique_forward_path`: pulls at most two paths from the forward
path generator; `next(paths)` raises StopIteration when no path exists,
and the second pull defaults to `None`, whose Python truthiness (or that
of the list drawn) decides the answer (`not second_path`). -/
def has_unique_forward_path (es : EntitySet) (start goal : String) : Except PyErr Bool :=
  match find_forward_paths es start goal with
  | [] => .error .stopIteration
  | [_] => .ok true
  | _ :: p :: _ => .ok p.isEmpty

/-- Modelled from the spec: a `RelationshipPath` is an ordered sequence
of `(is_forward, relationship)` steps (the `RelationshipPath` class is
not among the sources).  A raw relationship list traversed in one
direction corresponds to the step sequence with that uniform flag. -/
def path_steps (is_forward : Bool) (p : List Relationship) : List (Bool × Relationship) :=
  p.map (fun r => (is_forward, r))

/-- Modelled from the spec: `RelationshipPath.reversed()` reverses the
step order and flips every step's direction flag. -/
def reversed_path (steps : List (Bool × Relationship)) : List (Bool × Relationship) :=
  (steps.map (fun s => (!s.1, s.2))).reverse

/-- Modelled from the spec: construction of a `Relationship`
(`featuretools/entityset/relationship.py` is not among the sources).
Per the specification it validates and normalizes: it fails with a
ValueError when the child column is the child table's own index or when
the parent and child columns' physical types differ, and as side
effects it promotes the parent column to the parent table's index when
it is not already and adds the `foreign_key` semantic tag to the child
column when missing — mutations that are kept even when the caller
later rejects the relationship. -/
def relationship_construct (pdf pc cdf cc : String) (st : PyState) : PyResult Relationship :=
  match alookup st.es.dataframeDict cdf with
  | none => .error (.keyError cdf) st
  | some child_df =>
  if child_df.index = some cc then
    .error (.valueError "child column is also the index of the child dataframe") st
  else
  match alookup st.es.dataframeDict pdf with
  | none => .error (.keyError pdf) st
  | some parent_df =>
  let st1 := if parent_df.index = some pc then st
             else setDf pdf { parent_df with index := some pc } st
  match alookup child_df.cols cc with
  | none => .error (.keyError cc) st1
  | some child_col =>
  let st2 := if "foreign_key" ∈ child_col.tags then st1
             else setCol cdf cc
               { child_col with tags := child_col.tags ++ ["foreign_key"] } st1
  match alookup st2.es.dataframeDict pdf with
  | none => .error (.keyError pdf) st2
  | some parent_df2 =>
  match alookup parent_df2.cols pc with
  | none => .error (.keyError pc) st2
  | some parent_col =>
  match alookup st2.es.dataframeDict cdf with
  | none => .error (.keyError cdf) st2
  | some child_df2 =>
  match alookup child_df2.cols cc with
  | none => .error (.keyError cc) st2
  | some child_col2 =>
  if parent_col.dtype ≠ child_col2.dtype then
    .error (.valueError "parent and child column physical types differ") st2
  else
    .ok ⟨pdf, pc, cdf, cc⟩ st2

/-- Continuation of `add_relationship` after the duplicate check ("this
is a new pair of entities"): child-index validation, `foreign_key`
tagging, parent-index promotion, the empty-pandas int64 conversion, the
dtype-equality check, and the append plus cache reset. -/
def add_relationship_new_pair (relationship : Relationship) (st : PyState) : PyResult Unit :=
  match alookup st.es.dataframeDict relationship.childDf with
  | none => .error (.keyError relationship.childDf) st
  | some child_df =>
  if child_df.index = some relationship.childCol then
    .error (.valueError "Unable to add relationship because child column is also its index") st
  else
  match alookup st.es.dataframeDict relationship.parentDf with
  | none => .error (.keyError relationship.parentDf) st
  | some _parent_df =>
  match alookup child_df.cols relationship.childCol with
  | none => .error (.keyError relationship.childCol) st
  | some child_col =>
  let st1 := if "foreign_key" ∈ child_col.tags then st
             else setCol relationship.childDf relationship.childCol
               { child_col with tags := child_col.tags ++ ["foreign_key"] } st
  match alookup st1.es.dataframeDict relationship.parentDf with
  | none => .error (.keyError relationship.parentDf) st1
  | some parent_df =>
  let st2 := if parent_df.index = some relationship.parentCol then st1
             else setDf relationship.parentDf
               { parent_df with index := some relationship.parentCol } st1
  -- empty pandas child columns of object dtype default from metadata round
  -- trips; convert to int64 when the parent column's logical type is numeric
  match alookup st2.es.dataframeDict relationship.childDf with
  | none => .error (.keyError relationship.childDf) st2
  | some child_df2 =>
  match alookup child_df2.cols relationship.childCol with
  | none => .error (.keyError relationship.childCol) st2
  | some child_col2 =>
  match alookup st2.es.dataframeDict relationship.parentDf with
  | none => .error (.keyError relationship.parentDf) st2
  | some parent_df2 =>
  match alookup parent_df2.cols relationship.parentCol with
  | none => .error (.keyError relationship.parentCol) st2
  | some parent_col2 =>
  let st3 := if child_df2.engine = Engine.pandas ∧ child_df2.empty
                ∧ child_col2.dtype = Dtype.object ∧ parent_col2.ltype.isNumeric then
      setCol relationship.childDf relationship.childCol
        { child_col2 with dtype := .int64 } st2
    else st2
  match alookup st3.es.dataframeDict relationship.parentDf with
  | none => .error (.keyError relationship.parentDf) st3
  | some parent_df3 =>
  match alookup parent_df3.cols relationship.parentCol with
  | none => .error (.keyError relationship.parentCol) st3
  | some parent_col3 =>
  match alookup st3.es.dataframeDict relationship.childDf with
  | none => .error (.keyError relationship.childDf) st3
  | some child_df3 =>
  match alookup child_df3.cols relationship.childCol with
  | none => .error (.keyError relationship.childCol) st3
  | some child_col3 =>
  if parent_col3.dtype ≠ child_col3.dtype then
    .error (.valueError "Unable to add relationship because of Pandas dtype mismatch") st3
  else
    .ok () (reset_data_description
      { st3 with es := { st3.es with relationships := st3.es.relationships ++ [relationship] } })

/-- `add_relationship`: accepts either the four ids or a prebuilt
`Relationship` (raising when both are supplied), constructs the
relationship from ids when needed, warns and no-ops on an exact
duplicate, and otherwise re-validates and mutates via
`add_relationship_new_pair`. -/
def add_relationship (pdf pc cdf cc : Option String) (rel : Option Relationship)
    (st : PyState) : PyResult Unit :=
  if rel.isSome ∧ (pdf.isSome ∨ pc.isSome ∨ cdf.isSome ∨ cc.isSome) then
    .error (.valueError "Cannot specify dataframe and column id values and also supply a Relationship") st
  else
  match (match rel with
         | some r => PyResult.ok r st
         | none => relationship_construct (pdf.getD "") (pc.getD "") (cdf.getD "")
             (cc.getD "") st) with
  | .error e st => .error e st
  | .ok relationship st =>
  if relationship ∈ st.es.relationships then
    .ok () (warnSt "Not adding duplicate relationship" st)
  else
    add_relationship_new_pair relationship st

/-- Modelled from the spec: `_check_time_type` composed with
`DEFAULT_DTYPE_VALUES` (both live outside the sources): the default
value of an int64/float64 dtype classifies as numeric, of a datetime64
dtype as datetime, and anything else as unrecognized. -/
def dtypeTimeClass : Dtype → Option TimeType
  | .int64 => some .numeric
  | .float64 => some .numeric
  | .datetime64 => some .datetime
  | _ => none

/-- `_get_time_type`: classifies the time column of a dataframe by the
default value of its physical type when the dataframe is empty or not a
pandas frame, and by its first value otherwise; raises a TypeError when
the classification is neither numeric nor datetime. -/
def get_time_type (df : DataFrame) (column_id : String) : Except PyErr TimeType :=
  match alookup df.cols column_id with
  | none => .error (.keyError column_id)
  | some col =>
      match (if df.engine ≠ .pandas ∨ df.empty then dtypeTimeClass col.dtype
             else col.firstClass) with
      | none => .error (.typeError "time index not recognized as numeric or datetime")
      | some t => .ok t

/-- Python `column_id or dataframe.ww.time_index`: `None` and the empty
string are falsy. -/
def pyOrStr (a b : Option String) : Option String :=
  match a with
  | none => b
  | some s => if s = "" then b else some s

/-- `_check_uniform_time_index`: resolves the column (defaulting to the
dataframe's time index, returning silently when there is none),
classifies it, records the classification on first observation and
raises a TypeError when it conflicts with the already established
entity-set-wide time type. -/
def check_uniform_time_index (df : DataFrame) (column_id : Option String)
    (st : PyState) : PyResult Unit :=
  match pyOrStr column_id df.timeIndex with
  | none => .ok () st
  | some cid =>
      match get_time_type df cid with
      | .error e => .error e st
      | .ok tt =>
          match st.es.timeType with
          | none => .ok () { st with es := { st.es with timeType := some tt } }
          | some t =>
              if t ≠ tt then
                .error (.typeError "time index type differs from other entityset time indexes") st
              else .ok () st

/-- Loop body of `_check_secondary_time_index`: for each declared
secondary time index entry run the uniform-time-index check on its key
column and append the key to its own dependent-column list when
missing (an in-place mutation of the dictionary's value lists). -/
def check_secondary_core (df : DataFrame) :
    List (String × List String) → PyState → PyResult (List (String × List String))
  | [], st => .ok [] st
  | (ti, columns) :: rest, st =>
      match check_uniform_time_index df (some ti) st with
      | .error e st => .error e st
      | .ok _ st =>
          match check_secondary_core df rest st with
          | .error e st => .error e st
          | .ok rest2 st =>
              .ok ((ti, if ti ∈ columns then columns else columns ++ [ti]) :: rest2) st

/-- `set_secondary_time_index`: runs the secondary-time-index check and
stores the (possibly augmented) mapping in the dataframe's woodwork
metadata.  The source receives the dataframe object itself; the
embedding has no object identity, so the dataframe is identified by its
name in the entity set. -/
def set_secondary_time_index (dataframe_id : String) (sti : List (String × List String))
    (st : PyState) : PyResult Unit :=
  match alookup st.es.dataframeDict dataframe_id with
  | none => .error (.keyError dataframe_id) st
  | some df =>
      match check_secondary_core df sti st with
      | .error e st => .error e st
      | .ok sti2 st => .ok () (setDf dataframe_id { df with metadataSti := some sti2 } st)

/-- `set_secondary_time_index` as invoked from `add_dataframe` on a
dataframe that is not yet stored in the dictionary: the same check and
metadata store, applied to the dataframe value. -/
def set_secondary_time_index_df (df : DataFrame) (sti : List (String × List String))
    (st : PyState) : PyResult DataFrame :=
  match check_secondary_core df sti st with
  | .error e st => .error e st
  | .ok sti2 st => .ok { df with metadataSti := some sti2 } st

/-- `_check_secondary_time_index` with no explicit mapping: iterates the
dataframe's own stored `secondary_time_index` metadata (a missing entry
defaults to a fresh empty dictionary) and writes the in-place list
mutations back. -/
def check_secondary_in_place_df (df : DataFrame) (st : PyState) : PyResult DataFrame :=
  match df.metadataSti with
  | none => .ok df st
  | some sti =>
      match check_secondary_core df sti st with
      | .error e st => .error e st
      | .ok sti2 st => .ok { df with metadataSti := some sti2 } st

/-- Modelled from the spec: `ww.init` of the Tabular Store collaborator
initializes the table's schema with the supplied name, index, time
index, logical types and semantic tags, and with `make_index` creates a
fresh integer index column; `already_sorted` concerns row order, which
is outside this schema-level embedding. -/
def ww_init (df : DataFrame) (name : String) (index time_index : Option String)
    (logical_types : List (String × LType)) (semantic_tags : List (String × List String))
    (make_index : Bool) : DataFrame :=
  let cols1 := logical_types.foldl (fun cs clt =>
    match alookup cs clt.1 with
    | some c => aset cs clt.1 { c with ltype := clt.2 }
    | none => cs) df.cols
  let cols2 := semantic_tags.foldl (fun cs cts =>
    match alookup cs cts.1 with
    | some c => aset cs cts.1 { c with tags := c.tags ++ cts.2.filter (fun t => t ∉ c.tags) }
    | none => cs) cols1
  let cols3 := if make_index then
      cols2 ++ [(index.getD "", ⟨.int64, .integer, ["index"], some .numeric⟩)]
    else cols2
  { df with
      name := name
      schemaInit := true
      index := index
      timeIndex := time_index
      cols := cols3 }

/-- Python truthiness of the `secondary_time_index` argument: `None` and
an empty dictionary are falsy. -/
def stiTruthy : Option (List (String × List String)) → Bool
  | none => false
  | some l => !l.isEmpty

/-- Continuation of `add_dataframe` after schema setup: the time-index
checks and the store plus cache reset. -/
def add_dataframe_store (dataframe_id : String) (df : DataFrame) (st : PyState) :
    PyResult Unit :=
  if df.timeIndex ≠ none then
    match check_uniform_time_index df none st with
    | .error e st => .error e st
    | .ok _ st =>
        match check_secondary_in_place_df df st with
        | .error e st => .error e st
        | .ok df4 st => .ok () (reset_data_description (setDf dataframe_id df4 st))
  else .ok () (reset_data_description (setDf dataframe_id df st))

/-- `add_dataframe`: rejects a dataframe whose engine differs from the
already stored ones, initializes the woodwork schema with the supplied
hints when none exists (otherwise just forces the name), applies a
supplied secondary time index, runs the time-type uniformity and
secondary-time-index checks when a time index is present, stores the
dataframe and resets the cached data description. -/
def add_dataframe (dataframe_id : String) (df : DataFrame) (index : Option String)
    (logical_types : List (String × LType)) (semantic_tags : List (String × List String))
    (make_index : Bool) (time_index : Option String)
    (secondary_time_index : Option (List (String × List String)))
    (_already_sorted : Bool) (st : PyState) : PyResult Unit :=
  if (match st.es.dataframeDict.head? with
      | some (_, first) => df.engine != first.engine
      | none => false) then
    .error (.valueError "All entity dataframes must be of the same type") st
  else
  let df2 := if ¬ df.schemaInit then
      ww_init df dataframe_id index time_index logical_types semantic_tags make_index
    else { df with name := dataframe_id }
  if stiTruthy secondary_time_index then
    match set_secondary_time_index_df df2 (secondary_time_index.getD []) st with
    | .error e st => .error e st
    | .ok df3 st => add_dataframe_store dataframe_id df3 st
  else add_dataframe_store dataframe_id df2 st

/-- The `metadata` property: returns the cached data description,
computing and storing it first when the cache is unset.  Modelled from
the spec: the Serialization collaborator's round trip produces a
schema-only copy of the entity set; rows are not part of this
embedding, so that copy is the entity set's core. -/
def metadata (st : PyState) : PyResult ESCore :=
  match st.es.dataDescription with
  | some d => .ok d st
  | none =>
      .ok st.es.toESCore
        { st with es := { st.es with dataDescription := some st.es.toESCore } }

/-- C4 counterexample state: an entity set holding one dataframe with an
integer column, whose metadata cache has already been filled. -/
def c4df : DataFrame :=
  { name := "t", engine := .pandas, empty := true, schemaInit := true,
    index := none, timeIndex := none,
    cols := [("c", { dtype := .int64, ltype := .integer, tags := [],
                     firstClass := some .numeric })],
    metadataSti := none }

def c4core : ESCore :=
  { dataframeDict := [("t", c4df)], relationships := [], timeType := none }

def c4state : PyState :=
  { es := { toESCore := c4core, dataDescription := some c4core }, warnings := [] }

/-- The state `set_secondary_time_index "t" [("c", [])]` produces from
`c4state`: the dataframe's metadata and the entity-set time type change,
but the cached description is untouched. -/
def c4stateAfter : PyState :=
  { es := { dataframeDict :=
              [("t", { c4df with metadataSti := some [("c", ["c"])] })],
            relationships := [], timeType := some .numeric,
            dataDescription := some c4core },
    warnings := [] }

def c3colInt : Column :=
  { dtype := .int64, ltype := .integer, tags := [], firstClass := some .numeric }

def c3pdf : DataFrame :=
  { name := "p", engine := .pandas, empty := false, schemaInit := true,
    index := some "other", timeIndex := none,
    cols := [("pc", c3colInt), ("other", c3colInt)], metadataSti := none }

def c3cdf : DataFrame :=
  { name := "c", engine := .pandas, empty := false, schemaInit := true,
    index := some "idc", timeIndex := none,
    cols := [("idc", c3colInt), ("cc", c3colInt)], metadataSti := none }

def c3state : PyState :=
  { es := { dataframeDict := [("p", c3pdf), ("c", c3cdf)],
            relationships := [⟨"p", "pc", "c", "cc"⟩],
            timeType := none, dataDescription := none },
    warnings := [] }

def c9colObj : Column :=
  { dtype := .object, ltype := .categorical, tags := ["foreign_key"], firstClass := none }

def c9colFloat : Column :=
  { dtype := .float64, ltype := .double, tags := [], firstClass := some .numeric }

/-- C9 counterexample parent: logical type `Double` is numeric but the
physical dtype is float64, not int64. -/
def c9parent : DataFrame :=
  { name := "p", engine := .pandas, empty := false, schemaInit := true,
    index := some "pc", timeIndex := none, cols := [("pc", c9colFloat)],
    metadataSti := none }

/-- C9 counterexample child: an empty pandas dataframe whose foreign-key
column has object dtype. -/
def c9child : DataFrame :=
  { name := "c", engine := .pandas, empty := true, schemaInit := true,
    index := some "idc", timeIndex := none,
    cols := [("idc", c3colInt), ("cc", c9colObj)], metadataSti := none }

def c9state : PyState :=
  { es := { dataframeDict := [("p", c9parent), ("c", c9child)], relationships := [],
            timeType := none, dataDescription := none },
    warnings := [] }

def c9rel : Relationship := ⟨"p", "pc", "c", "cc"⟩

def c9parentInt : DataFrame :=
  { name := "p", engine := .pandas, empty := false, schemaInit := true,
    index := some "pc", timeIndex := none, cols := [("pc", c3colInt)],
    metadataSti := none }

def c9stateInt : PyState :=
  { es := { dataframeDict := [("p", c9parentInt), ("c", c9child)], relationships := [],
            timeType := none, dataDescription := none },
    warnings := [] }

/-- A Python argument that should be a list: `None`, an actual list, or
some other (non-list, generally truthy) object. -/
inductive PyArg where
  | pynone
  | list (l : List String)
  | notAList
deriving DecidableEq, Repr

/-- Python truthiness of such an argument: `None` and the empty list are
falsy. -/
def PyArg.truthy : PyArg → Bool
  | .pynone => false
  | .list l => !l.isEmpty
  | .notAList => true

/-- The `make_time_index` argument: `None`, a boolean, or a column
name. -/
inductive MakeTimeIndexArg where
  | noneArg
  | boolArg (b : Bool)
  | strArg (s : String)
deriving DecidableEq, Repr

/-- Python truthiness of `make_time_index` (`None`, `False` and the
empty string are falsy). -/
def MakeTimeIndexArg.truthy : MakeTimeIndexArg → Bool
  | .noneArg => false
  | .boolArg b => b
  | .strArg s => !(s = "")

/-- The caller-visible final value of the `copy_columns` argument:
`copy_columns = copy_columns or []` rebinds a falsy argument (None or an
empty list) to a fresh list, so only a nonempty caller list is aliased
by the function's local and reflects the in-place `append`. -/
def ccReport (ccArg : PyArg) (cell : List String) : PyArg :=
  match ccArg with
  | .list l => if l.isEmpty then ccArg else .list cell
  | x => x

/-- The initial content of the local `copy_columns` list right after the
`or []` rebinding. -/
def ccInit (ccArg : PyArg) : List String :=
  match (if ccArg.truthy then ccArg else PyArg.list []) with
  | .list l => l
  | _ => []

/-- State after the validation prefix of `normalize_dataframe`
(source lines 631-678). -/
structure Stage1Out where
  base : DataFrame
  acL : List String
  ccL : List String
  tt : List (String × (LType × List String))
deriving DecidableEq, Repr

/-- State after the time-index branch of `normalize_dataframe`
(source lines 683-709), whose `elif` arm performs the in-place
`copy_columns.append`. -/
structure Stage2Out where
  mti2 : MakeTimeIndexArg
  base_time_index : Option String
  ndti : Option String
  already_sorted : Bool
  ccL2 : List String
  tt2 : List (String × (LType × List String))
deriving DecidableEq, Repr

/-- Everything the mutating tail of `normalize_dataframe` needs. -/
structure NormalizePrep where
  newDf : DataFrame
  alreadySorted : Bool
  ndti : Option String
  msti : Option (List (String × List String))
  ltypes : List (String × LType)
  stags : List (String × List String)
  acL : List String
  baseName : String
deriving DecidableEq, Repr

/-- Lines 676-678: transfer the logical type and the semantic tags minus
`time_index` of every moved or copied column, raising a KeyError for a
column the base dataframe does not have. -/
def transfer_types_fold (base : DataFrame) :
    List String → List (String × (LType × List String)) →
    Except PyErr (List (String × (LType × List String)))
  | [], acc => .ok acc
  | c :: rest, acc =>
      match alookup base.cols c with
      | none => .error (.keyError c)
      | some col =>
          transfer_types_fold base rest
            (aset acc c (col.ltype, col.tags.filter (fun tg => tg ≠ "time_index")))

/-- Lines 673-678: the `transfer_types` dictionary, seeded with the new
index column's logical type and tags. -/
def transfer_types_build (base : DataFrame) (index : String) (cols : List String) :
    Except PyErr (List (String × (LType × List String))) :=
  match alookup base.cols index with
  | none => .error (.keyError index)
  | some c0 => transfer_types_fold base cols [(index, (c0.ltype, c0.tags))]

/-- The validation prefix of `normalize_dataframe` (source lines
631-678): base lookup, the `or []` rebinding of the column-list
arguments, list-type and duplicate checks, the index-role check, the
base-time-index-in-additional check, the string `make_time_index`
checks, the index-not-base-index check, and the `transfer_types`
construction.  An error carries the content of the local `copy_columns`
list at the raise. -/
def normalize_stage1 (es : EntitySet) (base_dataframe_id index : String)
    (additional_columns copy_columns : PyArg) (make_time_index : MakeTimeIndexArg) :
    Except (PyErr × List String) Stage1Out :=
  let cc0 := ccInit copy_columns
  match alookup es.dataframeDict base_dataframe_id with
  | none => .error (.keyError base_dataframe_id, cc0)
  | some base_dataframe =>
  match (if additional_columns.truthy then additional_columns else PyArg.list []) with
  | .pynone => .error (.typeError "additional_columns must be a list", cc0)
  | .notAList => .error (.typeError "additional_columns must be a list", cc0)
  | .list acL =>
  if ¬ acL.Nodup then
    .error (.valueError "additional_columns contains duplicate variables. All variables must be unique.", cc0)
  else
  match (if copy_columns.truthy then copy_columns else PyArg.list []) with
  | .pynone => .error (.typeError "copy_columns must be a list", cc0)
  | .notAList => .error (.typeError "copy_columns must be a list", cc0)
  | .list ccL =>
  if ¬ ccL.Nodup then
    .error (.valueError "copy_columns contains duplicate variables. All variables must be unique.", ccL)
  else if index ∈ acL ++ ccL then
    .error (.valueError "Not copying as both index and variable", ccL)
  else if ∃ v ∈ acL, some v = base_dataframe.timeIndex then
    .error (.valueError "Not moving the base time index variable. Perhaps, move the variable to the copy_columns.", ccL)
  else if (match make_time_index with
           | .strArg mts => decide (¬ mts ∈ base_dataframe.columns)
           | _ => false) then
    .error (.valueError "make_time_index must be a variable in the base entity", ccL)
  else if (match make_time_index with
           | .strArg mts => decide (¬ mts ∈ acL ++ ccL)
           | _ => false) then
    .error (.valueError "make_time_index must be specified in additional_columns or copy_columns", ccL)
  else if some index = base_dataframe.index then
    .error (.valueError "index must be different from the index column of the base entity", ccL)
  else
  match transfer_types_build base_dataframe index (acL ++ ccL) with
  | .error e => .error (e, ccL)
  | .ok tt => .ok ⟨base_dataframe, acL, ccL, tt⟩

/-- The time-index branch of `normalize_dataframe` (source lines
683-709).  Line 683 reads `base_dataframe.time_index`, a plain pandas
attribute access (not `.ww.time_index`): it yields the column named
"time_index" when such a column exists — a Series, which is never
`None` — and raises an AttributeError otherwise; line 690 likewise.
In the `elif` (truthy, non-string) arm the base time index is appended
in place to the local `copy_columns` list when it is not among
`additional_columns`; the Stage2Out (or the error) carries the
resulting list content. -/
def normalize_stage2 (s1 : Stage1Out) (make_time_index : MakeTimeIndexArg)
    (new_dataframe_time_index : Option String) :
    Except (PyErr × List String) Stage2Out :=
  match (match make_time_index with
         | .noneArg =>
             if "time_index" ∈ s1.base.columns then
               Except.ok (MakeTimeIndexArg.boolArg true)
             else Except.error (PyErr.attributeError "time_index")
         | m => .ok m) with
  | .error e => .error (e, s1.ccL)
  | .ok mti2 =>
  match mti2 with
  | .strArg mts =>
      -- line 690 compares the string against the pandas column named
      -- "time_index" elementwise; the comparison's truth is row-data
      -- dependent and outside this schema-level embedding
      if "time_index" ∈ s1.base.columns then
        .ok ⟨.strArg mts, some mts, some mts, false, s1.ccL, s1.tt⟩
      else .error (.attributeError "time_index", s1.ccL)
  | m =>
      if m.truthy then
        -- lines 691-705: make_time_index is truthy and not a string
        let ndtiStr := match new_dataframe_time_index with
                       | some x => x
                       | none => "first_" ++ s1.base.name ++ "_time"
        match s1.base.timeIndex with
        | none => .error (.assertionError "Base entity does not have time_index defined", s1.ccL)
        | some t =>
            let ccL2 := if t ∈ s1.acL then s1.ccL else s1.ccL ++ [t]
            match alookup s1.base.cols t with
            | none => .error (.keyError t, ccL2)
            | some tcol =>
                .ok ⟨m, some t, some ndtiStr, true, ccL2,
                     aset s1.tt ndtiStr (tcol.ltype, tcol.tags)⟩
      else
        -- lines 707-709
        .ok ⟨m, none, none, false, s1.ccL, s1.tt⟩

/-- Pandas column projection `df[selected]`: the selected columns with
their schema information, KeyError on a missing column. -/
def project_cols (df : DataFrame) : List String → Except PyErr (List (String × Column))
  | [] => .ok []
  | c :: rest =>
      match alookup df.cols c with
      | none => .error (.keyError c)
      | some col =>
          match project_cols df rest with
          | .error e => .error e
          | .ok r => .ok ((c, col) :: r)

/-- Lines 711-753 of `normalize_dataframe`: the time-index/index clash
check, the schema of the derived dataframe (first-occurrence extraction
and the optional last-occurrence secondary join are row operations; at
schema level the result carries the selected columns, the base engine
and the base emptiness, and no woodwork schema), the secondary-time-
index assertion, renames and remapping, and the koalas sortedness
override. -/
def normalize_stage3 (index : String) (s1 : Stage1Out) (s2 : Stage2Out)
    (make_secondary_time_index : Option (List (String × List String)))
    (new_dataframe_secondary_time_index : Option String) :
    Except PyErr NormalizePrep :=
  if s2.ndti = some index then
    .error (.valueError "time_index and index cannot be the same value")
  else
  match project_cols s1.base (index :: (s1.acL ++ s2.ccL2)) with
  | .error e => .error e
  | .ok selCols =>
  let cols1 := if s2.mti2.truthy then
      selCols.map (fun nc =>
        if some nc.1 = s2.base_time_index then (s2.ndti.getD nc.1, nc.2) else nc)
    else selCols
  match (if stiTruthy make_secondary_time_index then
           match make_secondary_time_index.getD [] with
           | [(stiKey, stiCols)] =>
               match project_cols s1.base (index :: stiKey :: stiCols) with
               | .error e => Except.error e
               | .ok sec =>
                   let sti2 := match new_dataframe_secondary_time_index with
                               | some x => x
                               | none => stiKey
                   let joined := cols1 ++ (sec.drop 1).map (fun nc =>
                     if nc.1 = stiKey then (sti2, nc.2) else nc)
                   let msti2 := [(sti2, stiCols.map (fun c2 =>
                     if c2 = stiKey then sti2 else c2))]
                   Except.ok (joined, some msti2)
           | _ => Except.error (.assertionError "Can only provide 1 secondary time index")
         else Except.ok (cols1, make_secondary_time_index)) with
  | .error e => .error e
  | .ok (finalCols, msti2) =>
  let already_sorted2 := if s1.base.engine = Engine.koalas then false else s2.already_sorted
  .ok { newDf := { name := "", engine := s1.base.engine, empty := s1.base.empty,
                   schemaInit := false, index := none, timeIndex := none,
                   cols := finalCols, metadataSti := none },
        alreadySorted := already_sorted2, ndti := s2.ndti, msti := msti2,
        ltypes := s2.tt2.map (fun ct => (ct.1, ct.2.1)),
        stags := s2.tt2.map (fun ct => (ct.1, ct.2.2.filter (fun tg => tg ≠ "time_index"))),
        acL := s1.acL, baseName := s1.base.name }

/-- The pure prefix of `normalize_dataframe` (everything before the
first entity-set mutation), returning the prepared data or the raised
error, together with the final content of the local `copy_columns`
list. -/
def normalize_prep (es : EntitySet) (base_dataframe_id _new_dataframe_id index : String)
    (additional_columns copy_columns : PyArg) (make_time_index : MakeTimeIndexArg)
    (make_secondary_time_index : Option (List (String × List String)))
    (new_dataframe_time_index new_dataframe_secondary_time_index : Option String) :
    Except PyErr NormalizePrep × List String :=
  match normalize_stage1 es base_dataframe_id index additional_columns copy_columns
      make_time_index with
  | .error (e, cell) => (.error e, cell)
  | .ok s1 =>
      match normalize_stage2 s1 make_time_index new_dataframe_time_index with
      | .error (e, cell) => (.error e, cell)
      | .ok s2 =>
          (normalize_stage3 index s1 s2 make_secondary_time_index
            new_dataframe_secondary_time_index, s2.ccL2)

/-- The mutating tail of `normalize_dataframe` (source lines 756-773):
register the derived dataframe, drop the moved columns from the base
dataframe, tag the derivation key as a foreign key, add the new
one-to-many relationship and reset the cached data description. -/
def normalize_tail (base_dataframe_id new_dataframe_id index : String)
    (p : NormalizePrep) (st : PyState) : PyResult Unit :=
  match add_dataframe new_dataframe_id p.newDf (some index) p.ltypes p.stags false
      p.ndti p.msti p.alreadySorted st with
  | .error e st => .error e st
  | .ok _ st =>
  match alookup st.es.dataframeDict base_dataframe_id with
  | none => .error (.keyError base_dataframe_id) st
  | some bdf =>
  -- line 767: `.ww.drop(additional_columns)`
  let st := setDf base_dataframe_id
    { bdf with cols := bdf.cols.filter (fun nc => nc.1 ∉ p.acL) } st
  match alookup st.es.dataframeDict base_dataframe_id with
  | none => .error (.keyError base_dataframe_id) st
  | some bdf2 =>
  -- line 770: `.ww.add_semantic_tags` on the derivation key
  match alookup bdf2.cols index with
  | none => .error (.keyError index) st
  | some c =>
  let newTags := if "foreign_key" ∈ c.tags then c.tags else c.tags ++ ["foreign_key"]
  let st := setDf base_dataframe_id
    { bdf2 with cols := aset bdf2.cols index { c with tags := newTags } } st
  -- lines 769-772
  match alookup st.es.dataframeDict new_dataframe_id with
  | none => .error (.keyError new_dataframe_id) st
  | some ndf =>
  match add_relationship (some ndf.name) (some index) (some p.baseName) (some index)
      none st with
  | .error e st => .error e st
  | .ok _ st => .ok () (reset_data_description st)

/-- `normalize_dataframe`: validation, derived-dataframe construction
and the mutating tail; the second component is the caller-visible final
value of the `copy_columns` argument (the local list's content when the
caller's nonempty list is aliased, the caller's original object
otherwise). -/
def normalize_dataframe (base_dataframe_id new_dataframe_id index : String)
    (additional_columns copy_columns : PyArg) (make_time_index : MakeTimeIndexArg)
    (make_secondary_time_index : Option (List (String × List String)))
    (new_dataframe_time_index new_dataframe_secondary_time_index : Option String)
    (st : PyState) : PyResult Unit × PyArg :=
  match normalize_prep st.es base_dataframe_id new_dataframe_id index additional_columns
      copy_columns make_time_index make_secondary_time_index new_dataframe_time_index
      new_dataframe_secondary_time_index with
  | (.error e, cell) => (.error e st, ccReport copy_columns cell)
  | (.ok prep, cell) =>
      (normalize_tail base_dataframe_id new_dataframe_id index prep st,
       ccReport copy_columns cell)

def c8base : DataFrame :=
  { name := "transactions", engine := .pandas, empty := false, schemaInit := true,
    index := some "id", timeIndex := some "ts",
    cols := [("id", c3colInt), ("sess", c3colInt), ("amt", c3colInt)],
    metadataSti := none }

def c8state : PyState :=
  { es := { dataframeDict := [("transactions", c8base)], relationships := [],
            timeType := none, dataDescription := none },
    warnings := [] }

/-- C10 counterexample base dataframe: index `id`, time index `ts`. -/
def c10base : DataFrame :=
  { name := "transactions", engine := .pandas, empty := false, schemaInit := true,
    index := some "id", timeIndex := some "ts",
    cols := [("id", c3colInt), ("sess", c3colInt), ("amt", c3colInt),
             ("ts", { dtype := .datetime64, ltype := .datetimeLt,
                      tags := ["time_index"], firstClass := some .datetime })],
    metadataSti := none }

def c10state : PyState :=
  { es := { dataframeDict := [("transactions", c10base)], relationships := [],
            timeType := some .datetime, dataDescription := none },
    warnings := [] }

theorem alookup_aset_self {α : Type} (l : List (String × α)) (k : String) (v : α) :
    alookup (aset l k v) k = some v := by
  induction l with
  | nil => simp [aset, alookup]
  | cons h t ih =>
      obtain ⟨k2, v2⟩ := h
      by_cases hk : k2 = k
      · simp [aset, alookup, hk]
      · simp [aset, alookup, hk, ih]

theorem alookup_aset_ne {α : Type} (l : List (String × α)) (k k2 : String) (v : α)
    (h : k2 ≠ k) : alookup (aset l k v) k2 = alookup l k2 := by
  induction l with
  | nil => simp [aset, alookup, Ne.symm h]
  | cons hd t ih =>
      obtain ⟨k3, v3⟩ := hd
      by_cases hk : k3 = k
      · subst hk
        simp [aset, alookup, Ne.symm h]
      · simp [aset, alookup, hk, ih]

@[simp] theorem setDf_relationships (n : String) (df : DataFrame) (st : PyState) :
    (setDf n df st).es.relationships = st.es.relationships := rfl

@[simp] theorem setDf_dataDescription (n : String) (df : DataFrame) (st : PyState) :
    (setDf n df st).es.dataDescription = st.es.dataDescription := rfl

@[simp] theorem setDf_timeType (n : String) (df : DataFrame) (st : PyState) :
    (setDf n df st).es.timeType = st.es.timeType := rfl

@[simp] theorem setDf_warnings (n : String) (df : DataFrame) (st : PyState) :
    (setDf n df st).warnings = st.warnings := rfl

@[simp] theorem setCol_relationships (d c : String) (col : Column) (st : PyState) :
    (setCol d c col st).es.relationships = st.es.relationships := by
  unfold setCol
  split <;> rfl

@[simp] theorem setCol_dataDescription (d c : String) (col : Column) (st : PyState) :
    (setCol d c col st).es.dataDescription = st.es.dataDescription := by
  unfold setCol
  split <;> rfl

@[simp] theorem setCol_timeType (d c : String) (col : Column) (st : PyState) :
    (setCol d c col st).es.timeType = st.es.timeType := by
  unfold setCol
  split <;> rfl

@[simp] theorem setCol_warnings (d c : String) (col : Column) (st : PyState) :
    (setCol d c col st).warnings = st.warnings := by
  unfold setCol
  split <;> rfl

@[simp] theorem warnSt_es (msg : String) (st : PyState) :
    (warnSt msg st).es = st.es := rfl

@[simp] theorem alookup_setDf_self (n : String) (df : DataFrame) (st : PyState) :
    alookup (setDf n df st).es.dataframeDict n = some df := by
  simp [setDf, alookup_aset_self]

theorem alookup_setDf_ne (n m : String) (df : DataFrame) (st : PyState) (h : m ≠ n) :
    alookup (setDf n df st).es.dataframeDict m = alookup st.es.dataframeDict m := by
  simp [setDf, alookup_aset_ne _ _ _ _ h]

theorem setCol_eq (d c : String) (col : Column) (st : PyState) (df : DataFrame)
    (h : alookup st.es.dataframeDict d = some df) :
    setCol d c col st = setDf d { df with cols := aset df.cols c col } st := by
  unfold setCol
  rw [h]

@[simp] theorem reset_data_description_dataDescription (st : PyState) :
    (reset_data_description st).es.dataDescription = none := rfl

@[simp] theorem reset_data_description_relationships (st : PyState) :
    (reset_data_description st).es.relationships = st.es.relationships := rfl

@[simp] theorem reset_data_description_dataframeDict (st : PyState) :
    (reset_data_description st).es.dataframeDict = st.es.dataframeDict := rfl

@[simp] theorem reset_data_description_warnings (st : PyState) :
    (reset_data_description st).warnings = st.warnings := rfl

theorem setDf_dataframeDict (n : String) (df : DataFrame) (st : PyState) :
    (setDf n df st).es.dataframeDict = aset st.es.dataframeDict n df := rfl

theorem forward_entity_paths_tail_nonempty (es : EntitySet) (fuel : Nat) (start : String)
    (seen : List String) :
    ∀ x ∈ (forward_entity_paths es fuel start seen).drop 1, x.2 ≠ [] := by
  cases fuel with
  | zero => simp [forward_entity_paths]
  | succ f =>
      unfold forward_entity_paths
      by_cases h : start ∈ seen
      · simp [h]
      · simp only [h, if_false, List.drop_succ_cons, List.drop_zero]
        intro x hx
        rw [List.mem_flatMap] at hx
        obtain ⟨r, hr, hx⟩ := hx
        cases hdn : df_name es r.parentDf with
        | none => rw [hdn] at hx; simp at hx
        | some next =>
            rw [hdn] at hx
            rw [List.mem_map] at hx
            obtain ⟨sp, hsp, rfl⟩ := hx
            simp

theorem filterMap_goal_tail_nonempty (l : List (String × List Relationship)) (goal : String)
    (h : ∀ x ∈ l.drop 1, x.2 ≠ []) :
    ∀ p ∈ (l.filterMap (fun sp => if sp.1 = goal then some sp.2 else none)).drop 1,
      p ≠ [] := by
  cases l with
  | nil => simp
  | cons a t =>
      have ht : ∀ x ∈ t, x.2 ≠ [] := by
        intro x hx
        exact h x (by simpa using hx)
      have key : ∀ q ∈ t.filterMap (fun sp => if sp.1 = goal then some sp.2 else none),
          q ≠ [] := by
        intro q hq
        rw [List.mem_filterMap] at hq
        obtain ⟨x, hx, hfx⟩ := hq
        by_cases h2 : x.1 = goal
        · simp only [h2, if_true, Option.some.injEq] at hfx
          exact hfx ▸ ht x hx
        · simp [h2] at hfx
      intro p hp
      simp only [List.filterMap_cons] at hp
      by_cases ha : a.1 = goal
      · simp only [ha, if_true] at hp
        simp only [List.drop_succ_cons, List.drop_zero] at hp
        exact key p hp
      · simp only [ha, if_false] at hp
        exact key p (List.drop_subset _ _ hp)

/-- C1: for every entity set and every pair of table ids `(A, B)`, the
sequence of paths yielded by `find_backward_paths A B` is exactly the
sequence yielded by `find_forward_paths B A` with every path's step
order reversed and every step's direction flag inverted (backward paths
are traversed against the relationships, so their steps carry the
`false` direction flag). This holds for all pairs, in particular for
every pair where `B` is reachable from `A`. -/
theorem find_backward_paths_reverses_forward_paths (es : EntitySet) (A B : String) :
    (find_backward_paths es A B).map (path_steps false) =
      (find_forward_paths es B A).map (fun p => reversed_path (path_steps true p)) := by
  unfold find_backward_paths
  rw [List.map_map]
  refine List.map_congr_left ?_
  intro p _
  simp [path_steps, reversed_path, Function.comp, List.map_map, List.map_reverse]

/-- C2: `has_unique_forward_path A B` returns `true` iff
`find_forward_paths A B` yields exactly one path, returns `false` when
it yields two or more, and propagates the generator's exhaustion failure
(StopIteration) when it yields none. -/
theorem has_unique_forward_path_spec (es : EntitySet) (A B : String) :
    has_unique_forward_path es A B =
      if (find_forward_paths es A B).length = 0 then .error .stopIteration
      else .ok (decide ((find_forward_paths es A B).length = 1)) := by
  have hne : ∀ p ∈ (find_forward_paths es A B).drop 1, p ≠ [] :=
    filterMap_goal_tail_nonempty _ _ (forward_entity_paths_tail_nonempty es _ A [])
  unfold has_unique_forward_path
  cases hl : find_forward_paths es A B with
  | nil => simp
  | cons a t =>
      cases t with
      | nil => simp
      | cons p rest =>
          rw [hl] at hne
          have hp : p ≠ [] := hne p (by simp)
          have hpe : p.isEmpty = false := by
            cases p with
            | nil => exact absurd rfl hp
            | cons q qs => rfl
          simp [hpe, List.length_cons]

/-- C5: adding a relationship equal to one already registered emits a
duplicate warning and is otherwise a no-op — the entity set (in
particular the relationships list's length and contents) is unchanged
and no error is raised. -/
theorem add_relationship_duplicate_warns_noop (st : PyState) (r : Relationship)
    (h : r ∈ st.es.relationships) :
    add_relationship none none none none (some r) st =
      .ok () (warnSt "Not adding duplicate relationship" st) := by
  unfold add_relationship
  simp [h]

theorem add_relationship_duplicate_warns_noop_witness :
    (⟨"p", "pc", "c", "cc"⟩ : Relationship) ∈
        ({ es := { dataframeDict := [], relationships := [⟨"p", "pc", "c", "cc"⟩],
                   timeType := none, dataDescription := none },
           warnings := [] } : PyState).es.relationships
    ∧ add_relationship none none none none (some ⟨"p", "pc", "c", "cc"⟩)
        { es := { dataframeDict := [], relationships := [⟨"p", "pc", "c", "cc"⟩],
                  timeType := none, dataDescription := none },
          warnings := [] } =
      .ok () { es := { dataframeDict := [], relationships := [⟨"p", "pc", "c", "cc"⟩],
                       timeType := none, dataDescription := none },
               warnings := ["Not adding duplicate relationship"] } :=
  ⟨by simp, by
    rw [add_relationship_duplicate_warns_noop _ _ (by simp)]
    rfl⟩

/-- C6: adding a relationship whose child column is the child
dataframe's own index raises a ValueError and leaves the state — in
particular the relationships list — unchanged, both when the
relationship object is passed directly and when it is constructed from
the four ids. -/
theorem add_relationship_child_index_raises (st : PyState) (r : Relationship)
    (cdf : DataFrame)
    (hlk : alookup st.es.dataframeDict r.childDf = some cdf)
    (hidx : cdf.index = some r.childCol)
    (hdup : r ∉ st.es.relationships) :
    add_relationship none none none none (some r) st =
      .error (.valueError "Unable to add relationship because child column is also its index") st
    ∧ add_relationship (some r.parentDf) (some r.parentCol) (some r.childDf)
        (some r.childCol) none st =
      .error (.valueError "child column is also the index of the child dataframe") st := by
  constructor
  · unfold add_relationship add_relationship_new_pair
    simp [hdup, hlk, hidx]
  · unfold add_relationship relationship_construct
    simp [hlk, hidx]

theorem add_relationship_child_index_raises_witness :
    add_relationship none none none none (some ⟨"p", "pc", "c", "idc"⟩)
      { es := { dataframeDict :=
                  [("c", { name := "c", engine := .pandas, empty := false, schemaInit := true,
                           index := some "idc", timeIndex := none, cols := [], metadataSti := none })],
                relationships := [], timeType := none, dataDescription := none },
        warnings := [] } =
    .error (.valueError "Unable to add relationship because child column is also its index")
      { es := { dataframeDict :=
                  [("c", { name := "c", engine := .pandas, empty := false, schemaInit := true,
                           index := some "idc", timeIndex := none, cols := [], metadataSti := none })],
                relationships := [], timeType := none, dataDescription := none },
        warnings := [] } :=
  (add_relationship_child_index_raises _ _
    { name := "c", engine := .pandas, empty := false, schemaInit := true,
      index := some "idc", timeIndex := none, cols := [], metadataSti := none }
    (by rfl) (by rfl) (by simp)).1

/-- C7: when a registered dataframe's time index classifies as `t`, the
uniformity check records `t` as the entity-set time type on first
observation without error, and raises a TypeError when a time type of
the other classification has already been established. -/
theorem check_uniform_time_index_spec (st : PyState) (df : DataFrame) (c : String)
    (t : TimeType)
    (hti : df.timeIndex = some c)
    (hg : get_time_type df c = .ok t) :
    (st.es.timeType = none →
        check_uniform_time_index df none st =
          .ok () { st with es := { st.es with timeType := some t } }) ∧
    (∀ u, st.es.timeType = some u → u ≠ t →
        check_uniform_time_index df none st =
          .error (.typeError "time index type differs from other entityset time indexes") st) := by
  constructor
  · intro h0
    unfold check_uniform_time_index
    simp [pyOrStr, hti, hg, h0]
  · intro u hu hut
    unfold check_uniform_time_index
    simp [pyOrStr, hti, hg, hu, hut]

theorem check_uniform_time_index_spec_witness :
    check_uniform_time_index
        { name := "t1", engine := .pandas, empty := true, schemaInit := true,
          index := none, timeIndex := some "ts",
          cols := [("ts", { dtype := .datetime64, ltype := .datetimeLt, tags := [],
                            firstClass := some .datetime })],
          metadataSti := none } none
        { es := { dataframeDict := [], relationships := [], timeType := none,
                  dataDescription := none },
          warnings := [] } =
      .ok () { es := { dataframeDict := [], relationships := [],
                       timeType := some .datetime, dataDescription := none },
               warnings := [] }
    ∧ check_uniform_time_index
        { name := "t2", engine := .pandas, empty := true, schemaInit := true,
          index := none, timeIndex := some "n",
          cols := [("n", { dtype := .int64, ltype := .integer, tags := [],
                           firstClass := some .numeric })],
          metadataSti := none } none
        { es := { dataframeDict := [], relationships := [], timeType := some .datetime,
                  dataDescription := none },
          warnings := [] } =
      .error (.typeError "time index type differs from other entityset time indexes")
        { es := { dataframeDict := [], relationships := [], timeType := some .datetime,
                  dataDescription := none },
          warnings := [] } :=
  ⟨(check_uniform_time_index_spec _ _ "ts" .datetime (by rfl) (by rfl)).1 (by rfl),
   (check_uniform_time_index_spec _ _ "n" .numeric (by rfl) (by rfl)).2 .datetime (by rfl)
     (by decide)⟩

theorem check_uniform_time_index_frame (df : DataFrame) (cid : Option String)
    (st : PyState) (a : Unit) (stF : PyState)
    (h : check_uniform_time_index df cid st = .ok a stF) :
    stF.es.dataframeDict = st.es.dataframeDict ∧
    stF.es.relationships = st.es.relationships ∧
    stF.es.dataDescription = st.es.dataDescription ∧
    stF.warnings = st.warnings := by
  unfold check_uniform_time_index at h
  repeat' split at h
  all_goals first
    | (cases h; exact ⟨rfl, rfl, rfl, rfl⟩)
    | simp at h

theorem check_secondary_core_frame (df : DataFrame) (sti : List (String × List String))
    (st : PyState) (r : List (String × List String)) (stF : PyState)
    (h : check_secondary_core df sti st = .ok r stF) :
    stF.es.dataframeDict = st.es.dataframeDict ∧
    stF.es.relationships = st.es.relationships ∧
    stF.es.dataDescription = st.es.dataDescription ∧
    stF.warnings = st.warnings := by
  induction sti generalizing st r stF with
  | nil =>
      unfold check_secondary_core at h
      cases h
      exact ⟨rfl, rfl, rfl, rfl⟩
  | cons hd tl ih =>
      obtain ⟨ti, columns⟩ := hd
      unfold check_secondary_core at h
      cases h1 : check_uniform_time_index df (some ti) st with
      | error e st1 => rw [h1] at h; simp at h
      | ok a st1 =>
          rw [h1] at h
          dsimp only at h
          cases h2 : check_secondary_core df tl st1 with
          | error e st2 => rw [h2] at h; simp at h
          | ok r2 st2 =>
              rw [h2] at h
              dsimp only at h
              cases h
              have f1 := check_uniform_time_index_frame _ _ _ _ _ h1
              have f2 := ih _ _ _ h2
              exact ⟨f2.1.trans f1.1, f2.2.1.trans f1.2.1,
                     f2.2.2.1.trans f1.2.2.1, f2.2.2.2.trans f1.2.2.2⟩

theorem relationship_construct_frame (pdf pc cdf cc : String) (st : PyState)
    (r : Relationship) (stF : PyState)
    (h : relationship_construct pdf pc cdf cc st = .ok r stF) :
    stF.es.relationships = st.es.relationships ∧
    stF.es.dataDescription = st.es.dataDescription ∧
    stF.warnings = st.warnings := by
  unfold relationship_construct at h
  dsimp only at h
  repeat' split at h
  all_goals first
    | (cases h; refine ⟨by simp, by simp, by simp⟩)
    | simp at h

/-- C4 counterexample: `set_secondary_time_index` is a mutating call
after which the cached metadata snapshot is NOT invalidated — the cache
still holds the pre-mutation snapshot, a subsequent `metadata` access
returns that stale value, and the stale value differs from what a
recomputation would produce. -/
theorem set_secondary_time_index_keeps_stale_cache :
    set_secondary_time_index "t" [("c", [])] c4state = .ok () c4stateAfter
    ∧ c4stateAfter.es.dataDescription = some c4core
    ∧ metadata c4stateAfter = .ok c4core c4stateAfter
    ∧ c4core ≠ c4stateAfter.es.toESCore := by
  refine ⟨by rfl, by rfl, by rfl, ?_⟩
  intro hcontr
  have := congrArg ESCore.timeType hcontr
  simp [c4core, c4stateAfter] at this

theorem add_relationship_new_pair_cache (r : Relationship) (st stF : PyState)
    (h : add_relationship_new_pair r st = .ok () stF) :
    stF.es.dataDescription = none := by
  unfold add_relationship_new_pair at h
  dsimp only at h
  repeat' split at h
  all_goals first
    | (cases h; simp)
    | simp at h

/-- C4 amended: `add_dataframe` always invalidates the cached metadata
snapshot; `add_relationship` invalidates it whenever it actually
appends a relationship (a duplicate add leaves the whole entity set,
cache included, unchanged); but `set_secondary_time_index` does NOT
invalidate the cache — it leaves the cached snapshot exactly as it
was, so a subsequent `metadata` access after a direct
`set_secondary_time_index` call returns the pre-mutation snapshot. -/
theorem cache_invalidation_spec :
    (∀ id df idx lt tg mi ti sti srt st stF,
        add_dataframe id df idx lt tg mi ti sti srt st = .ok () stF →
        stF.es.dataDescription = none) ∧
    (∀ pdf pc cdf cc rel st stF,
        add_relationship pdf pc cdf cc rel st = .ok () stF →
        stF.es.relationships = st.es.relationships ∨ stF.es.dataDescription = none) ∧
    (∀ id sti st stF,
        set_secondary_time_index id sti st = .ok () stF →
        stF.es.dataDescription = st.es.dataDescription) := by
  refine ⟨?_, ?_, ?_⟩
  · intro id df idx lt tg mi ti sti srt st stF h
    unfold add_dataframe add_dataframe_store set_secondary_time_index_df at h
    dsimp only at h
    repeat' split at h
    all_goals first
      | (cases h; simp)
      | simp at h
  · intro pdf pc cdf cc rel st stF h
    unfold add_relationship at h
    split at h
    · simp at h
    · cases rel with
      | some r =>
          dsimp only at h
          split at h
          · cases h
            exact Or.inl (by simp)
          · exact Or.inr (add_relationship_new_pair_cache _ _ _ h)
      | none =>
          cases hc : relationship_construct (pdf.getD "") (pc.getD "") (cdf.getD "")
              (cc.getD "") st with
          | error e st1 => rw [hc] at h; simp at h
          | ok r st1 =>
              rw [hc] at h
              dsimp only at h
              split at h
              · cases h
                have := (relationship_construct_frame _ _ _ _ _ _ _ hc).1
                exact Or.inl (by simpa using this)
              · exact Or.inr (add_relationship_new_pair_cache _ _ _ h)
  · intro id sti st stF h
    unfold set_secondary_time_index at h
    cases h0 : alookup st.es.dataframeDict id with
    | none => rw [h0] at h; simp at h
    | some df =>
        rw [h0] at h
        dsimp only at h
        cases h1 : check_secondary_core df sti st with
        | error e st2 => rw [h1] at h; simp at h
        | ok r st2 =>
            rw [h1] at h
            dsimp only at h
            cases h
            have f1 := check_secondary_core_frame _ _ _ _ _ h1
            simp [f1.2.2.1]

theorem cache_invalidation_spec_witness :
    set_secondary_time_index "t" [("c", [])] c4state = .ok () c4stateAfter
    ∧ c4stateAfter.es.dataDescription = c4state.es.dataDescription :=
  ⟨by rfl, cache_invalidation_spec.2.2 "t" [("c", [])] c4state c4stateAfter (by rfl)⟩

/-- C3: calling `add_relationship` with the four ids of a relationship
already present still performs the side-effect mutations of the
(spec-modelled) `Relationship` construction — the parent column is
promoted to the parent table's index and the `foreign_key` semantic tag
is added to the child column — before the duplicate is detected and
rejected with a warning; the relationships list and the cached data
description are untouched. -/
theorem add_relationship_duplicate_still_mutates
    (st : PyState) (pdf pc cdf cc : String) (pdfDf cdfDf : DataFrame) (ccCol pcCol : Column)
    (hne : pdf ≠ cdf)
    (hpd : alookup st.es.dataframeDict pdf = some pdfDf)
    (hcd : alookup st.es.dataframeDict cdf = some cdfDf)
    (hcidx : ¬ cdfDf.index = some cc)
    (hccol : alookup cdfDf.cols cc = some ccCol)
    (hpcol : alookup pdfDf.cols pc = some pcCol)
    (hdt : pcCol.dtype = ccCol.dtype)
    (hdup : (⟨pdf, pc, cdf, cc⟩ : Relationship) ∈ st.es.relationships) :
    ∃ stF, add_relationship (some pdf) (some pc) (some cdf) (some cc) none st = .ok () stF
      ∧ stF.es.relationships = st.es.relationships
      ∧ stF.es.dataDescription = st.es.dataDescription
      ∧ (∃ d, alookup stF.es.dataframeDict pdf = some d ∧ d.index = some pc)
      ∧ (∃ d c2, alookup stF.es.dataframeDict cdf = some d ∧ alookup d.cols cc = some c2
           ∧ "foreign_key" ∈ c2.tags)
      ∧ stF.warnings = st.warnings ++ ["Not adding duplicate relationship"] := by
  have hlcdf : ∀ df2 st2, alookup (setDf pdf df2 st2).es.dataframeDict cdf
      = alookup st2.es.dataframeDict cdf := fun df2 st2 => alookup_setDf_ne _ _ _ _ hne.symm
  have hlpdf : ∀ df2 st2, alookup (setDf cdf df2 st2).es.dataframeDict pdf
      = alookup st2.es.dataframeDict pdf := fun df2 st2 => alookup_setDf_ne _ _ _ _ hne
  unfold add_relationship relationship_construct
  dsimp only
  simp only [Option.getD_some, Option.isSome_none, Option.isSome_some, Bool.false_eq_true,
    false_and, and_false, if_false, ite_false, reduceCtorEq]
  by_cases hpi : pdfDf.index = some pc <;> by_cases hfk : "foreign_key" ∈ ccCol.tags
  · -- parent column already the index, tag already present: no state change
    simp only [hpd, hcd, hccol, hpcol, hcidx, hpi, hfk, hdt, hdup, if_true, if_false,
      ite_true, ite_false, ne_eq, not_true_eq_false, not_false_eq_true]
    exact ⟨_, rfl, by simp, by simp, ⟨pdfDf, by simp [hpd], hpi⟩,
      ⟨cdfDf, ccCol, by simp [hcd], hccol, hfk⟩, by simp [warnSt]⟩
  · -- parent column already the index, tag added to the child column
    have hsc : setCol cdf cc { ccCol with tags := ccCol.tags ++ ["foreign_key"] } st
        = setDf cdf { cdfDf with
            cols := aset cdfDf.cols cc { ccCol with tags := ccCol.tags ++ ["foreign_key"] } } st :=
      setCol_eq _ _ _ _ _ hcd
    simp only [hpd, hcd, hccol, hpcol, hcidx, hpi, hfk, hdt, hdup, if_true, if_false,
      ite_true, ite_false, ne_eq, not_true_eq_false, not_false_eq_true, hsc,
      alookup_setDf_self, hlpdf, alookup_aset_self, setDf_relationships]
    exact ⟨_, rfl, by simp, by simp,
      ⟨pdfDf, by simp [hlpdf, hpd], hpi⟩,
      ⟨{ cdfDf with cols := aset cdfDf.cols cc { ccCol with tags := ccCol.tags ++ ["foreign_key"] } }, { ccCol with tags := ccCol.tags ++ ["foreign_key"] }, by simp, alookup_aset_self _ _ _, by simp⟩,
      by simp [warnSt]⟩
  · -- parent column promoted to the index, tag already present
    simp only [hpd, hcd, hccol, hpcol, hcidx, hpi, hfk, hdt, hdup, if_true, if_false,
      ite_true, ite_false, ne_eq, not_true_eq_false, not_false_eq_true,
      alookup_setDf_self, hlcdf, setDf_relationships]
    exact ⟨_, rfl, by simp, by simp,
      ⟨{ pdfDf with index := some pc }, by simp, rfl⟩,
      ⟨cdfDf, ccCol, by simp [hlcdf, hcd], hccol, hfk⟩,
      by simp [warnSt]⟩
  · -- parent column promoted and tag added
    have hcd1 : alookup (setDf pdf { pdfDf with index := some pc } st).es.dataframeDict cdf
        = some cdfDf := by rw [hlcdf]; exact hcd
    have hsc : setCol cdf cc { ccCol with tags := ccCol.tags ++ ["foreign_key"] }
          (setDf pdf { pdfDf with index := some pc } st)
        = setDf cdf { cdfDf with
            cols := aset cdfDf.cols cc { ccCol with tags := ccCol.tags ++ ["foreign_key"] } }
            (setDf pdf { pdfDf with index := some pc } st) :=
      setCol_eq _ _ _ _ _ hcd1
    simp only [hpd, hcd, hccol, hpcol, hcidx, hpi, hfk, hdt, hdup, if_true, if_false,
      ite_true, ite_false, ne_eq, not_true_eq_false, not_false_eq_true, hsc,
      alookup_setDf_self, hlpdf, hlcdf, alookup_aset_self, setDf_relationships]
    exact ⟨_, rfl, by simp, by simp,
      ⟨{ pdfDf with index := some pc }, by simp [hlpdf], rfl⟩,
      ⟨{ cdfDf with cols := aset cdfDf.cols cc { ccCol with tags := ccCol.tags ++ ["foreign_key"] } }, { ccCol with tags := ccCol.tags ++ ["foreign_key"] }, by simp, alookup_aset_self _ _ _, by simp⟩,
      by simp [warnSt]⟩

theorem add_relationship_duplicate_still_mutates_witness :
    (⟨"p", "pc", "c", "cc"⟩ : Relationship) ∈ c3state.es.relationships
    ∧ ∃ stF, add_relationship (some "p") (some "pc") (some "c") (some "cc") none c3state
        = .ok () stF
      ∧ stF.es.relationships = c3state.es.relationships
      ∧ stF.es.dataDescription = c3state.es.dataDescription
      ∧ (∃ d, alookup stF.es.dataframeDict "p" = some d ∧ d.index = some "pc")
      ∧ (∃ d c2, alookup stF.es.dataframeDict "c" = some d ∧ alookup d.cols "cc" = some c2
           ∧ "foreign_key" ∈ c2.tags)
      ∧ stF.warnings = c3state.warnings ++ ["Not adding duplicate relationship"] :=
  ⟨by simp [c3state],
   add_relationship_duplicate_still_mutates c3state "p" "pc" "c" "cc" c3pdf c3cdf
     c3colInt c3colInt (by decide) (by rfl) (by rfl) (by simp [c3cdf]) (by rfl) (by rfl)
     (by rfl) (by simp [c3state])⟩

/-- C9 amended: when `add_relationship` is called for an empty pandas
child dataframe whose child column has object dtype while the parent
column's logical type is numeric, the child column is replaced by an
empty int64 series before the dtype-equality check; the relationship is
therefore accepted — rather than rejected for a dtype mismatch —
exactly when the parent column's dtype is int64 (this theorem proves
the acceptance for an int64 parent; the counterexample shows a
float64-dtype numeric parent is still rejected after the
conversion). -/
theorem add_relationship_empty_child_conversion
    (st : PyState) (r : Relationship) (pdfDf cdfDf : DataFrame) (pcCol ccCol : Column)
    (hne : r.parentDf ≠ r.childDf)
    (hdup : r ∉ st.es.relationships)
    (hcd : alookup st.es.dataframeDict r.childDf = some cdfDf)
    (hcidx : ¬ cdfDf.index = some r.childCol)
    (hpd : alookup st.es.dataframeDict r.parentDf = some pdfDf)
    (hccol : alookup cdfDf.cols r.childCol = some ccCol)
    (hfk : "foreign_key" ∈ ccCol.tags)
    (hpidx : pdfDf.index = some r.parentCol)
    (hpcol : alookup pdfDf.cols r.parentCol = some pcCol)
    (heng : cdfDf.engine = Engine.pandas) (hemp : cdfDf.empty = true)
    (hobj : ccCol.dtype = Dtype.object) (hnum : pcCol.ltype.isNumeric = true)
    (hint : pcCol.dtype = Dtype.int64) :
    ∃ stF, add_relationship none none none none (some r) st = .ok () stF
      ∧ stF.es.relationships = st.es.relationships ++ [r]
      ∧ (∃ d c2, alookup stF.es.dataframeDict r.childDf = some d
           ∧ alookup d.cols r.childCol = some c2 ∧ c2.dtype = Dtype.int64) := by
  have hlpdf : ∀ df2 st2, alookup (setDf r.childDf df2 st2).es.dataframeDict r.parentDf
      = alookup st2.es.dataframeDict r.parentDf := fun df2 st2 => alookup_setDf_ne _ _ _ _ hne
  have hsc : setCol r.childDf r.childCol { ccCol with dtype := Dtype.int64 } st
      = setDf r.childDf { cdfDf with cols := aset cdfDf.cols r.childCol { ccCol with dtype := Dtype.int64 } } st :=
    setCol_eq _ _ _ _ _ hcd
  unfold add_relationship add_relationship_new_pair
  dsimp only
  simp only [hcd, hpd, hccol, hpcol, hcidx, hfk, hpidx, heng, hemp, hobj, hnum, hint, hdup,
    if_true, if_false, ite_true, ite_false, and_true, true_and, and_self, ne_eq,
    not_true_eq_false, not_false_eq_true, hsc, alookup_setDf_self, hlpdf, alookup_aset_self]
  exact ⟨_, rfl, by simp,
    ⟨{ cdfDf with cols := aset cdfDf.cols r.childCol { ccCol with dtype := Dtype.int64 } }, { ccCol with dtype := Dtype.int64 }, by simp [heng, hemp], alookup_aset_self _ _ _, rfl⟩⟩

/-- C9 counterexample: with an empty pandas child of object dtype and a
parent column whose logical type is numeric but whose dtype is float64,
the int64 replacement does happen, yet the relationship is NOT accepted
— the dtype-equality check still rejects it with a ValueError and the
relationships list stays empty — refuting the claim that the
replacement makes the relationship accepted in this situation. -/
theorem add_relationship_empty_child_rejected_despite_conversion :
    add_relationship none none none none (some c9rel) c9state =
      .error (.valueError "Unable to add relationship because of Pandas dtype mismatch")
        (setCol "c" "cc"
          { dtype := .int64, ltype := .categorical, tags := ["foreign_key"],
            firstClass := none } c9state)
    ∧ (setCol "c" "cc"
          { dtype := .int64, ltype := .categorical, tags := ["foreign_key"],
            firstClass := none } c9state).es.relationships = [] :=
  ⟨rfl, rfl⟩

theorem add_relationship_empty_child_conversion_witness :
    ∃ stF, add_relationship none none none none (some c9rel) c9stateInt = .ok () stF
      ∧ stF.es.relationships = c9stateInt.es.relationships ++ [c9rel]
      ∧ (∃ d c2, alookup stF.es.dataframeDict c9rel.childDf = some d
           ∧ alookup d.cols c9rel.childCol = some c2 ∧ c2.dtype = Dtype.int64) :=
  add_relationship_empty_child_conversion c9stateInt c9rel c9parentInt c9child
    c3colInt c9colObj (by decide) (by simp [c9stateInt]) (by rfl) (by simp [c9child, c9rel])
    (by rfl) (by rfl) (by simp [c9colObj]) (by rfl) (by rfl) (by rfl) (by rfl)
    (by rfl) (by rfl) (by rfl)

theorem ccReport_ccInit (cc : PyArg) : ccReport cc (ccInit cc) = cc := by
  cases cc with
  | pynone => rfl
  | notAList => rfl
  | list l => cases l <;> rfl

theorem normalize_stage1_error_cell (es : EntitySet) (bid index : String)
    (ac cc : PyArg) (mti : MakeTimeIndexArg) (e : PyErr) (cell : List String)
    (h : normalize_stage1 es bid index ac cc mti = .error (e, cell)) :
    cell = ccInit cc := by
  unfold normalize_stage1 at h
  dsimp only at h
  repeat' split at h
  all_goals first
    | (cases h; rfl)
    | (cases h; simp_all [ccInit])
    | simp at h

theorem normalize_stage1_viol_error (es : EntitySet) (bid index : String)
    (ac cc : PyArg) (mti : MakeTimeIndexArg) (bdf : DataFrame)
    (hb : alookup es.dataframeDict bid = some bdf)
    (hviol :
      some index = bdf.index
      ∨ (∃ l, ac = PyArg.list l ∧ (index ∈ l ∨ ¬ l.Nodup))
      ∨ (∃ l, cc = PyArg.list l ∧ (index ∈ l ∨ ¬ l.Nodup))
      ∨ ac = PyArg.notAList ∨ cc = PyArg.notAList
      ∨ (∃ l t, ac = PyArg.list l ∧ bdf.timeIndex = some t ∧ t ∈ l)) :
    ∃ e cell, normalize_stage1 es bid index ac cc mti = .error (e, cell)
      ∧ e.isValueOrType = true := by
  unfold normalize_stage1
  rw [hb]
  dsimp only
  repeat' split
  all_goals try exact ⟨_, _, rfl, rfl⟩
  -- remaining goals: every validation check passed, contradicting hviol
  all_goals exfalso
  all_goals
    rcases hviol with hv | ⟨l, hl, hv⟩ | ⟨l, hl, hv⟩ | hv | hv | ⟨l, t, hl, ht, hv⟩ <;>
      subst_eqs <;> try split_ifs at * <;> simp_all [PyArg.truthy]

/-- C8: every call to `normalize_dataframe` in which the new index
equals the base dataframe's index, or the new index appears in
`additional_columns` or `copy_columns`, or `additional_columns` or
`copy_columns` contains duplicates or is not a list, or the base
dataframe's time index appears in `additional_columns`, raises a
ValueError or TypeError before any mutation of the entity set's
dataframes or relationships occurs: the state is returned unchanged and
the caller's `copy_columns` argument is untouched. -/
theorem normalize_dataframe_validation_errors
    (st : PyState) (bid nid index : String) (ac cc : PyArg) (mti : MakeTimeIndexArg)
    (msti : Option (List (String × List String))) (ndti ndsti : Option String)
    (bdf : DataFrame)
    (hb : alookup st.es.dataframeDict bid = some bdf)
    (hviol :
      some index = bdf.index
      ∨ (∃ l, ac = PyArg.list l ∧ (index ∈ l ∨ ¬ l.Nodup))
      ∨ (∃ l, cc = PyArg.list l ∧ (index ∈ l ∨ ¬ l.Nodup))
      ∨ ac = PyArg.notAList ∨ cc = PyArg.notAList
      ∨ (∃ l t, ac = PyArg.list l ∧ bdf.timeIndex = some t ∧ t ∈ l)) :
    ∃ e, normalize_dataframe bid nid index ac cc mti msti ndti ndsti st
        = (.error e st, cc) ∧ e.isValueOrType = true := by
  obtain ⟨e, cell, h1, he⟩ :=
    normalize_stage1_viol_error st.es bid index ac cc mti bdf hb hviol
  have hc := normalize_stage1_error_cell st.es bid index ac cc mti e cell h1
  refine ⟨e, ?_, he⟩
  unfold normalize_dataframe normalize_prep
  rw [h1]
  dsimp only
  rw [hc, ccReport_ccInit]

theorem normalize_dataframe_validation_errors_witness :
    ∃ e, normalize_dataframe "transactions" "sessions" "sess"
        (PyArg.list ["amt", "amt"]) PyArg.pynone (.boolArg false) none none none
        c8state = (.error e c8state, PyArg.pynone)
      ∧ e.isValueOrType = true :=
  normalize_dataframe_validation_errors c8state "transactions" "sessions" "sess"
    (PyArg.list ["amt", "amt"]) PyArg.pynone (.boolArg false) none none none c8base
    (by rfl) (Or.inr (Or.inl ⟨["amt", "amt"], rfl, Or.inr (by simp)⟩))

theorem orEmpty_list (l : List String) :
    (if (PyArg.list l).truthy then PyArg.list l else PyArg.list []) = PyArg.list l := by
  cases l <;> rfl

theorem transfer_types_fold_ok (base : DataFrame) (cols : List String)
    (acc : List (String × (LType × List String)))
    (h : ∀ c ∈ cols, (alookup base.cols c).isSome) :
    ∃ tt, transfer_types_fold base cols acc = .ok tt := by
  induction cols generalizing acc with
  | nil => exact ⟨acc, rfl⟩
  | cons c rest ih =>
      obtain ⟨col, hcol⟩ := Option.isSome_iff_exists.mp (h c (by simp))
      unfold transfer_types_fold
      rw [hcol]
      exact ih _ (fun d hd => h d (by simp [hd]))

theorem normalize_stage1_ok (es : EntitySet) (bid index : String)
    (acl ccl : List String) (bdf : DataFrame)
    (hb : alookup es.dataframeDict bid = some bdf)
    (hacnd : acl.Nodup) (hccnd : ccl.Nodup)
    (hidx : index ∉ acl ++ ccl)
    (htac : ∀ v ∈ acl, ¬ some v = bdf.timeIndex)
    (hbidx : ¬ some index = bdf.index)
    (hco : ∀ c ∈ index :: (acl ++ ccl), (alookup bdf.cols c).isSome) :
    ∃ tt, normalize_stage1 es bid index (.list acl) (.list ccl)
        (.boolArg true) = .ok ⟨bdf, acl, ccl, tt⟩ := by
  unfold normalize_stage1
  rw [hb]
  dsimp only
  rw [orEmpty_list, orEmpty_list]
  dsimp only
  rw [if_neg (by simp [hacnd]), if_neg (by simp [hccnd]), if_neg hidx,
    if_neg (by simpa using htac)]
  try dsimp only
  rw [if_neg hbidx]
  simp only [Bool.false_eq_true, if_false]
  obtain ⟨c0, hc0⟩ := Option.isSome_iff_exists.mp (hco index (by simp))
  unfold transfer_types_build
  rw [hc0]
  dsimp only
  obtain ⟨tt, htt⟩ := transfer_types_fold_ok bdf (acl ++ ccl) [(index, (c0.ltype, c0.tags))]
    (fun d hd => hco d (by simp [hd]))
  rw [htt]
  exact ⟨tt, rfl⟩

theorem normalize_stage2_cc (s1 : Stage1Out) (ndti : Option String) (t : String)
    (ht : s1.base.timeIndex = some t) (htac : t ∉ s1.acL) :
    (match normalize_stage2 s1 (.boolArg true) ndti with
     | .error ec => ec.2
     | .ok s2 => s2.ccL2) = s1.ccL ++ [t] := by
  unfold normalize_stage2
  rw [ht]
  dsimp only [MakeTimeIndexArg.truthy]
  rw [if_neg htac]
  cases h3 : alookup s1.base.cols t <;> rfl

/-- C10 amended: when `normalize_dataframe`'s validation passes (the
argument lists are duplicate-free, the new index plays no other role,
and the referenced columns exist), `make_time_index` is truthy and not
a string, and the base dataframe's time index `t` is not listed in
`additional_columns`, then the local `copy_columns` list receives `t`
by an in-place append — caller-visible exactly when the caller supplied
a NONEMPTY list, whose final value is the original with `t` appended
(`copy_columns = copy_columns or []` replaces an empty or None argument
by a fresh list, so such a caller value is never mutated — see the
counterexample). -/
theorem normalize_appends_time_index_to_copy_columns
    (st : PyState) (bid nid index : String) (acl ccl : List String)
    (msti : Option (List (String × List String))) (ndti ndsti : Option String)
    (bdf : DataFrame) (t : String)
    (hb : alookup st.es.dataframeDict bid = some bdf)
    (hacnd : acl.Nodup) (hccnd : ccl.Nodup) (hccne : ccl ≠ [])
    (hidx : index ∉ acl ++ ccl)
    (ht : bdf.timeIndex = some t) (htac : t ∉ acl)
    (hbidx : ¬ some index = bdf.index)
    (hco : ∀ c ∈ index :: (acl ++ ccl), (alookup bdf.cols c).isSome) :
    (normalize_dataframe bid nid index (.list acl) (.list ccl) (.boolArg true)
        msti ndti ndsti st).2 = PyArg.list (ccl ++ [t]) := by
  obtain ⟨tt, h1⟩ := normalize_stage1_ok st.es bid index acl ccl bdf hb hacnd hccnd hidx
    (fun v hv => by
      rw [ht]
      simp only [Option.some.injEq]
      exact fun hvt => htac (hvt ▸ hv)) hbidx hco
  have h2 := normalize_stage2_cc ⟨bdf, acl, ccl, tt⟩ ndti t ht htac
  have hemp : ccl.isEmpty = false := by
    cases ccl with
    | nil => exact absurd rfl hccne
    | cons a l => rfl
  unfold normalize_dataframe normalize_prep
  rw [h1]
  dsimp only
  cases h3 : normalize_stage2 ⟨bdf, acl, ccl, tt⟩ (.boolArg true) ndti with
  | error ec =>
      rw [h3] at h2
      obtain ⟨e2, c2⟩ := ec
      dsimp only at h2 ⊢
      rw [h2]
      simp [ccReport, hemp]
  | ok s2 =>
      rw [h3] at h2
      dsimp only at h2 ⊢
      rw [h2]
      cases h4 : normalize_stage3 index ⟨bdf, acl, ccl, tt⟩ s2 msti ndsti <;>
        simp [ccReport, hemp]

/-- C10 counterexample: a call with `make_time_index` truthy and
non-string whose base time index `ts` is not in `additional_columns`,
but whose caller-supplied `copy_columns` is the EMPTY list: the in-
function append targets the fresh list created by
`copy_columns = copy_columns or []`, so the caller's list is NOT
mutated — its final value is still `[]`, not `["ts"]` as the claimed
argument-visible side effect would require. -/
theorem normalize_empty_copy_columns_not_mutated :
    (normalize_dataframe "transactions" "sessions" "sess" (PyArg.list ["amt"])
        (PyArg.list []) (.boolArg true) none none none c10state).2 = PyArg.list []
    ∧ PyArg.list ([] : List String) ≠ PyArg.list ["ts"] :=
  ⟨rfl, by decide⟩

theorem normalize_appends_time_index_to_copy_columns_witness :
    (normalize_dataframe "transactions" "sessions" "sess" (PyArg.list ["amt"])
        (PyArg.list ["id"]) (.boolArg true) none none none c10state).2
      = PyArg.list (["id"] ++ ["ts"]) :=
  normalize_appends_time_index_to_copy_columns c10state "transactions" "sessions" "sess"
    ["amt"] ["id"] none none none c10base "ts" (by rfl) (by simp) (by simp)
    (by simp) (by simp) (by rfl) (by simp) (by simp [c10base]) (by decide)

theorem flatMap_congr_mem {α β : Type} (l : List α) (f g : α → List β)
    (h : ∀ a ∈ l, f a = g a) : l.flatMap f = l.flatMap g := by
  induction l with
  | nil => rfl
  | cons a t ih =>
      simp only [List.flatMap_cons, h a (by simp)]
      rw [ih (fun b hb => h b (by simp [hb]))]

theorem length_filter_lt {α : Type} (l : List α) (p q : α → Bool)
    (hmono : ∀ a, q a = true → p a = true)
    (r : α) (hr : r ∈ l) (hp : p r = true) (hq : q r = false) :
    (l.filter q).length < (l.filter p).length := by
  induction l with
  | nil => cases hr
  | cons a t ih =>
      have hle : (t.filter q).length ≤ (t.filter p).length :=
        (List.monotone_filter_right t fun b hb => hmono b hb).length_le
      rcases List.mem_cons.mp hr with rfl | hrt
      · simp only [List.filter_cons, hp, hq, if_true, if_false, Bool.false_eq_true,
          List.length_cons]
        omega
      · have hlt := ih hrt
        cases hqa : q a
        · cases hpa : p a <;>
            simp only [List.filter_cons, hqa, hpa, if_true, if_false, Bool.false_eq_true,
              List.length_cons] <;> omega
        · have hpa : p a = true := hmono a hqa
          simp only [List.filter_cons, hqa, hpa, if_true, List.length_cons]
          omega

/-- The fuel `relationships.length + 1` used by `find_forward_paths` is
always sufficient: any two fuels at least one more than the number of
still-usable relationships produce the same traversal, so the fuel
never truncates the depth-first search of the source. -/
theorem forward_entity_paths_fuel_stable (es : EntitySet) :
    ∀ f g start seen, (usable es seen).length + 1 ≤ f →
      (usable es seen).length + 1 ≤ g →
      forward_entity_paths es f start seen = forward_entity_paths es g start seen := by
  intro f
  induction f with
  | zero => intro g start seen hf _; omega
  | succ f ih =>
      intro g start seen hf hg
      cases g with
      | zero => omega
      | succ g =>
          unfold forward_entity_paths
          by_cases hs : start ∈ seen
          · simp [hs]
          · simp only [hs, if_false]
            congr 1
            apply flatMap_congr_mem
            intro r hr
            obtain ⟨hrel, hdec⟩ := List.mem_filter.mp hr
            have hname : df_name es r.childDf = some start := of_decide_eq_true hdec
            cases hdn : df_name es r.parentDf with
            | none => rfl
            | some next =>
                have hlt : (usable es (start :: seen)).length < (usable es seen).length := by
                  apply length_filter_lt es.relationships _ _ ?_ r hrel ?_ ?_
                  · intro a ha
                    cases hda : df_name es a.childDf with
                    | none => rw [hda] at ha; exact absurd ha (by simp)
                    | some n =>
                        rw [hda] at ha
                        simp only [decide_eq_true_eq] at ha ⊢
                        exact fun hcon => ha (List.mem_cons_of_mem _ hcon)
                  · rw [hname]
                    simp only [decide_eq_true_eq]
                    exact hs
                  · rw [hname]
                    simp only [decide_eq_false_iff_not]
                    exact fun hcon => hcon (List.mem_cons_self _ _)
                dsimp only
                rw [ih g next (start :: seen) (by omega) (by omega)]

/-- At the entry point (`seen = []`) any fuel of at least
`relationships.length + 1` — the fuel `find_forward_paths` uses —
computes the same traversal. -/
theorem forward_entity_paths_fuel_adequate (es : EntitySet) (start : String) (k : Nat) :
    forward_entity_paths es (es.relationships.length + 1 + k) start []
      = forward_entity_paths es (es.relationships.length + 1) start [] := by
  have hb : (usable es []).length ≤ es.relationships.length := List.length_filter_le _ _
  exact forward_entity_paths_fuel_stable es _ _ start [] (by omega) (by omega)

end Featuretools
